import Mathlib

/-!
Verification of `src/agentscope/agents/dict_dialog_agent.py` (the
`DictDialogAgent` class) against its natural-language specification.

The single source file under verification defines the agent class: its
constructor (`__init__`) and its reply cycle (`reply`).  The collaborators it
imports — the model wrapper that drives the retry loop, the `Msg` message
class, the `PromptEngine`, the memory store and `PromptType` — are not part of
the source tree given here, so they are modelled from the specification's
description of their contracts; each such definition carries a doc comment
starting `Modelled from the spec:`.  Everything else is a direct translation
of the Python source.
-/

/-- Python values, as the decode and fallback functions may produce them:
strings, integers, booleans, `None`, lists and dicts.  Dict keys are
themselves arbitrary values, since a caller-supplied decode function may
build a dict with non-string keys. -/
inductive PyVal : Type where
  | str (s : String)
  | int (n : Int)
  | bool (b : Bool)
  | none
  | list (xs : List PyVal)
  | dict (entries : List (PyVal × PyVal))
deriving Repr

/-- Errors that the modelled Python fragments can raise.  `decodeError`
stands for the spec's `DecodeError` (a raw text that the decode function
rejects); `typeError` is Python's `TypeError`, raised for example by a
`**kwargs` expansion of a dict with non-string keys. -/
inductive PyError : Type where
  | decodeError
  | typeError
deriving Repr, DecidableEq

/-- Modelled from the spec: the Structured-Response Acquirer of §4.1, whose
implementation lives in the model wrapper that the source calls as
`self.model(prompt, parse_func=..., fault_handler=..., max_retries=...)` and
which is missing from the source tree.  `gen` is the Generation Service as a
deterministic stream of raw texts indexed by call number; `decode` returns
`none` on a `DecodeError`; `fb` is the fallback function.  The first argument
of the recursion is the remaining retry budget, the second the index of the
next Generation Service call.  Returns the acquired record together with the
total number of Generation Service calls issued.  Per the spec: call the
service, attempt to decode; on success return immediately; on failure, if
retries remain decrement the budget and re-invoke the service with the
identical prompt; once the budget is exhausted, return the fallback applied
to the most recent raw text. -/
def acquireFrom {α : Type} (gen : Nat → String) (decode : String → Option α)
    (fb : String → α) : Nat → Nat → α × Nat
  | budget, k =>
    match decode (gen k) with
    | some r => (r, k + 1)
    | Option.none =>
      match budget with
      | 0 => (fb (gen k), k + 1)
      | budget' + 1 => acquireFrom gen decode fb budget' (k + 1)

/-- Modelled from the spec: the acquisition call with retry budget `n`,
starting from the first Generation Service call.  Returns the acquired
record and the number of Generation Service calls issued. -/
def acquire {α : Type} (gen : Nat → String) (decode : String → Option α)
    (fb : String → α) (n : Nat) : α × Nat :=
  acquireFrom gen decode fb n 0

mutual
/-- Modelled from the spec: the coercion of an arbitrary record to display
text used by the Message class (missing from the source tree), per §4.2
"the resulting Message's display text is the record itself (coerced to
text)".  Strings coerce to themselves; other values get a Python-style
textual rendering. -/
def toText : PyVal → String
  | PyVal.str s => s
  | PyVal.int n => toString n
  | PyVal.bool b => if b then "True" else "False"
  | PyVal.none => "None"
  | PyVal.list xs => "[" ++ toTextList xs ++ "]"
  | PyVal.dict es => "\x7b" ++ toTextEntries es ++ "\x7d"

/-- Rendering of the elements of a list value, comma separated. -/
def toTextList : List PyVal → String
  | [] => ""
  | [x] => toText x
  | x :: xs => toText x ++ ", " ++ toTextList xs

/-- Rendering of the entries of a dict value, comma separated. -/
def toTextEntries : List (PyVal × PyVal) → String
  | [] => ""
  | [(k, v)] => toText k ++ ": " ++ toText v
  | (k, v) :: es => toText k ++ ": " ++ toText v ++ ", " ++ toTextEntries es
end

/-- Modelled from the spec: the canonical message record of §3 — sender
name, a designated display-text value, and an optional open-ended mapping of
additional named fields.  The `Msg` class itself is imported by the source
(`from ..message import Msg`) but missing from the source tree. -/
structure Msg : Type where
  name : String
  text : PyVal
  fields : Option (List (PyVal × PyVal))
deriving Repr

/-- Modelled from the spec: the Msg constructor.  Per the §3 invariant the
display text is always present and is a string, so the content passed in is
coerced to text on construction. -/
def Msg.make (name : String) (content : PyVal)
    (fields : Option (List (PyVal × PyVal))) : Msg :=
  ⟨name, PyVal.str (toText content), fields⟩

/-- The membership test of line 146 of the source, `"speak" in response`,
on the entries of a dict: the value of the first entry whose key is the
string "speak", if any. -/
def findSpeak : List (PyVal × PyVal) → Option PyVal
  | [] => Option.none
  | (PyVal.str s, v) :: es => if s = "speak" then some v else findSpeak es
  | _ :: es => findSpeak es

/-- Whether every key of a dict is a string.  Python raises a `TypeError`
when a `**` keyword expansion, as in `Msg(self.name, response["speak"],
**response)` on line 147 of the source, meets a non-string key. -/
def allStrKeys : List (PyVal × PyVal) → Bool
  | [] => true
  | (PyVal.str _, _) :: es => allStrKeys es
  | _ => false

/-- The Message Builder, translated from lines 144-149 of the source: if the
response is a dict containing the key "speak", build the message from the
speak value with every entry of the response passed as an additional field
(`Msg(self.name, response["speak"], **response)`); otherwise build it from
the response itself with no additional fields (`Msg(self.name, response)`).
The `**response` expansion raises a `TypeError` when a key of the dict is
not a string. -/
def buildMsg (name : String) (response : PyVal) : Except PyError Msg :=
  match response with
  | PyVal.dict es =>
    match findSpeak es with
    | some v =>
      if allStrKeys es then Except.ok (Msg.make name v (some es))
      else Except.error PyError.typeError
    | Option.none => Except.ok (Msg.make name response Option.none)
  | _ => Except.ok (Msg.make name response Option.none)

/-- Whether a value is a string. -/
def PyVal.isStr : PyVal → Bool
  | PyVal.str _ => true
  | _ => false

/-- JSON whitespace characters: space, newline, tab, carriage return. -/
def jsonWs (c : Char) : Bool :=
  c = ' ' || c = Char.ofNat 10 || c = Char.ofNat 9 || c = Char.ofNat 13

/-- Drop leading JSON whitespace. -/
def dropWs : List Char → List Char
  | [] => []
  | c :: cs => if jsonWs c then dropWs cs else c :: cs

/-- Parse the body of a JSON string up to the closing quote. -/
def parseStringBody : List Char → Option (String × List Char)
  | [] => Option.none
  | c :: cs =>
    if c = Char.ofNat 34 then some ("", cs)
    else
      match parseStringBody cs with
      | some (s, rest) => some (String.singleton c ++ s, rest)
      | Option.none => Option.none

/-- Split a character list into its leading run of decimal digits and the
rest. -/
def takeDigits : List Char → List Char × List Char
  | [] => ([], [])
  | c :: cs =>
    if c.isDigit then
      let p := takeDigits cs
      (c :: p.1, p.2)
    else ([], c :: cs)

/-- Value of a run of decimal digits. -/
def digitsToNat (ds : List Char) : Nat :=
  ds.foldl (fun a c => a * 10 + (c.toNat - 48)) 0

mutual
/-- Modelled from the spec: Python's `json.loads`, the documented default of
the decode function (`parse_func`, source line 44), described by the spec as
"parse text as a structured record (e.g., a JSON-like decode), failing with
DecodeError on malformed input".  A fuel-bounded recursive-descent parser
for a JSON fragment: strings (without escape sequences), integers, booleans,
null, arrays and objects. -/
def parseVal : Nat → List Char → Option (PyVal × List Char)
  | 0, _ => Option.none
  | Nat.succ fuel, cs =>
    match dropWs cs with
    | [] => Option.none
    | c :: cs1 =>
      if c = Char.ofNat 34 then
        match parseStringBody cs1 with
        | some (s, rest) => some (PyVal.str s, rest)
        | Option.none => Option.none
      else if c = Char.ofNat 123 then
        match dropWs cs1 with
        | c2 :: cs2 =>
          if c2 = Char.ofNat 125 then some (PyVal.dict [], cs2)
          else parseObjEntries fuel (c2 :: cs2)
        | [] => Option.none
      else if c = '[' then
        match dropWs cs1 with
        | c2 :: cs2 =>
          if c2 = ']' then some (PyVal.list [], cs2)
          else parseArrElems fuel (c2 :: cs2)
        | [] => Option.none
      else if c = 't' then
        match cs1 with
        | 'r' :: 'u' :: 'e' :: rest => some (PyVal.bool true, rest)
        | _ => Option.none
      else if c = 'f' then
        match cs1 with
        | 'a' :: 'l' :: 's' :: 'e' :: rest => some (PyVal.bool false, rest)
        | _ => Option.none
      else if c = 'n' then
        match cs1 with
        | 'u' :: 'l' :: 'l' :: rest => some (PyVal.none, rest)
        | _ => Option.none
      else if c = '-' then
        match takeDigits cs1 with
        | ([], _) => Option.none
        | (ds, rest) => some (PyVal.int (-(Int.ofNat (digitsToNat ds))), rest)
      else if c.isDigit then
        let p := takeDigits (c :: cs1)
        some (PyVal.int (Int.ofNat (digitsToNat p.1)), p.2)
      else Option.none

/-- Parse the comma-separated elements of a non-empty JSON array, up to and
including the closing bracket. -/
def parseArrElems : Nat → List Char → Option (PyVal × List Char)
  | 0, _ => Option.none
  | Nat.succ fuel, cs =>
    match parseVal fuel cs with
    | Option.none => Option.none
    | some (v, rest) =>
      match dropWs rest with
      | ',' :: rest2 =>
        match parseArrElems fuel rest2 with
        | some (PyVal.list vs, rest3) => some (PyVal.list (v :: vs), rest3)
        | _ => Option.none
      | ']' :: rest2 => some (PyVal.list [v], rest2)
      | _ => Option.none

/-- Parse the comma-separated entries of a non-empty JSON object, up to and
including the closing brace. -/
def parseObjEntries : Nat → List Char → Option (PyVal × List Char)
  | 0, _ => Option.none
  | Nat.succ fuel, cs =>
    match dropWs cs with
    | [] => Option.none
    | c :: cs1 =>
      if c = Char.ofNat 34 then
        match parseStringBody cs1 with
        | some (k, rest) =>
          match dropWs rest with
          | ':' :: rest2 =>
            match parseVal fuel rest2 with
            | some (v, rest3) =>
              match dropWs rest3 with
              | ',' :: rest4 =>
                match parseObjEntries fuel rest4 with
                | some (PyVal.dict es, rest5) =>
                  some (PyVal.dict ((PyVal.str k, v) :: es), rest5)
                | _ => Option.none
              | c5 :: rest5 =>
                if c5 = Char.ofNat 125 then
                  some (PyVal.dict [(PyVal.str k, v)], rest5)
                else Option.none
              | [] => Option.none
            | Option.none => Option.none
          | _ => Option.none
        | Option.none => Option.none
      else Option.none
end

/-- Modelled from the spec: the default decode function — Python's
`json.loads` — applied to a raw text: parse a JSON value and require that
only whitespace follows it; malformed input yields `none` (a
`DecodeError`). -/
def jsonLoads (s : String) : Option PyVal :=
  match parseVal (2 * s.length + 4) s.toList with
  | some (v, rest) => if dropWs rest = [] then some v else Option.none
  | Option.none => Option.none

/-- Modelled from the spec: the `ConfigurationError` of the §7 error
taxonomy, which the spec says is raised at Agent construction for an invalid
retry budget.  The source never raises it. -/
inductive ConfigurationError : Type where
  | invalidRetryBudget
deriving Repr, DecidableEq

/-- Modelled from the spec: the prompt layout (`PromptType`, imported by the
source from `..prompt` but missing from the source tree) — a flattened
string or a structured list of turns. -/
inductive PromptType : Type where
  | STRING
  | LIST
deriving Repr, DecidableEq

/-- The configuration a `DictDialogAgent` carries after construction: the
fields stored by `__init__` (source lines 84-99) that the reply cycle
reads. -/
structure DictDialogAgent : Type where
  name : String
  sys_prompt : Option String
  parse_func : String → Option PyVal
  fault_handler : String → PyVal
  max_retries : Int
  prompt_type : PromptType

/-- Translation of `__init__` (source lines 36-99): the constructor stores
the name, system prompt, parse function, fault handler, retry budget and
prompt type on the agent.  It performs no validation of any argument — in
particular none of the retry budget — and returns normally on every input,
never raising a `ConfigurationError`. -/
def dictDialogAgentInit (name : String) (sys_prompt : Option String)
    (parse_func : String → Option PyVal) (fault_handler : String → PyVal)
    (max_retries : Int) (prompt_type : PromptType) :
    Except ConfigurationError DictDialogAgent :=
  Except.ok ⟨name, sys_prompt, parse_func, fault_handler, max_retries,
    prompt_type⟩

/-- The default of `fault_handler` in the source signature (line 45):
`lambda x: {"speak": x}` — wrap the raw text as the value of the "speak"
key. -/
def defaultFaultHandler : String → PyVal :=
  fun x => PyVal.dict [(PyVal.str "speak", PyVal.str x)]

/-- The default of `parse_func` in the source signature (line 44):
`json.loads`, modelled by `jsonLoads`. -/
def defaultParseFunc : String → Option PyVal := jsonLoads

/-- The default of `max_retries` in the source signature (line 46). -/
def defaultMaxRetries : Int := 3

/-- The default of `prompt_type` in the source signature (line 47). -/
def defaultPromptType : PromptType := PromptType.LIST

/-- The parameters of `__init__` in source order (lines 36-48), each paired
with whether the signature gives it a default value.  `name: str` is the
only parameter without a default. -/
def initParamsWithDefault : List (String × Bool) :=
  [("name", false), ("config", true), ("sys_prompt", true), ("model", true),
   ("use_memory", true), ("memory_config", true), ("parse_func", true),
   ("fault_handler", true), ("max_retries", true), ("prompt_type", true)]

/-- An entry of the History Store (the agent's memory): either a caller
input dict recorded by `self.memory.add(x)` or a message recorded by
`self.memory.add(msg)`. -/
inductive HistoryEntry : Type where
  | inp (x : PyVal)
  | msg (m : Msg)
deriving Repr

/-- The entries a caller input contributes to the History Store: one entry
when an input is supplied, none otherwise. -/
def inpList : Option PyVal → List HistoryEntry
  | some v => [HistoryEntry.inp v]
  | Option.none => []

/-- Translation of `reply` (source lines 101-157): record the caller input
in memory if provided; assemble the prompt from the system prompt and the
current memory (the `PromptEngine.join` of line 128 is missing from the
source tree, so the assembler is an abstract argument); call the model
wrapper with the stored parse function, fault handler and retry budget
(modelled by `acquire`; the spec's retry budget is non-negative, so the
stored budget is clamped at zero); build the message from the acquired
record; record the message to memory; return it.  The result carries the
message, the final memory snapshot, the prompt used and the number of
Generation Service calls issued. -/
def reply (assemble : Option String → List HistoryEntry → String)
    (gen : String → Nat → String) (A : DictDialogAgent)
    (h : List HistoryEntry) (x : Option PyVal) :
    Except PyError (Msg × List HistoryEntry × String × Nat) :=
  let h1 := h ++ inpList x
  let prompt := assemble A.sys_prompt h1
  let rc := acquire (gen prompt) A.parse_func A.fault_handler
    A.max_retries.toNat
  match buildMsg A.name rc.1 with
  | Except.ok m => Except.ok (m, h1 ++ [HistoryEntry.msg m], prompt, rc.2)
  | Except.error e => Except.error e

/-- The record the reply cycle acquires, given an assembler, a generation
service, an agent, a history and an optional caller input. -/
def acquiredRecord (assemble : Option String → List HistoryEntry → String)
    (gen : String → Nat → String) (A : DictDialogAgent)
    (h : List HistoryEntry) (x : Option PyVal) : PyVal :=
  (acquire (gen (assemble A.sys_prompt (h ++ inpList x))) A.parse_func
    A.fault_handler A.max_retries.toNat).1

/-- When the decode function rejects every raw text, `acquireFrom` with
budget `n` starting at call index `k` issues calls `k, k+1, ..., k+n` and
returns the fallback applied to the raw text of the last call. -/
theorem acquireFrom_all_reject {α : Type} (gen : Nat → String)
    (decode : String → Option α) (fb : String → α)
    (hrej : ∀ t, decode t = Option.none) :
    ∀ n k, acquireFrom gen decode fb n k = (fb (gen (k + n)), k + n + 1) := by
  intro n
  induction n with
  | zero =>
    intro k
    simp [acquireFrom, hrej]
  | succ n ih =>
    intro k
    have h := ih (k + 1)
    simp only [acquireFrom, hrej]
    rw [h]
    ring_nf

/-- C1: for every raw text that the decode function always rejects, the
acquisition call with a non-negative retry budget `n` issues exactly `n + 1`
Generation Service calls and then returns the fallback function applied to
the most recent raw text (the text of call number `n`, counting from `0`);
in particular, with budget `0` it issues exactly one call and immediately
returns the fallback result. -/
theorem acquire_permanent_failure {α : Type} (gen : Nat → String)
    (decode : String → Option α) (fb : String → α) (n : Nat)
    (hrej : ∀ t, decode t = Option.none) :
    acquire gen decode fb n = (fb (gen n), n + 1) := by
  have h := acquireFrom_all_reject gen decode fb hrej n 0
  simpa [acquire] using h

/-- Witness for C1: with a decode that rejects everything, budget 2 issues
exactly 3 calls and returns the fallback of the third raw text. -/
theorem acquire_permanent_failure_witness :
    acquire (fun k => toString k) (fun _ => (Option.none : Option PyVal))
        (fun t => PyVal.str t) 2 = (PyVal.str "2", 3) := by
  have h := acquire_permanent_failure (fun k => toString k)
    (fun _ => (Option.none : Option PyVal)) (fun t => PyVal.str t) 2
    (fun _ => rfl)
  simpa using h

/-- C2: for every raw text `t` that the decode function accepts, the
acquisition call with any non-negative retry budget returns exactly
`decode t` and issues exactly one Generation Service call — success on
decode is the only path that returns without consuming further calls. -/
theorem acquire_first_decode_success {α : Type} (gen : Nat → String)
    (decode : String → Option α) (fb : String → α) (n : Nat) (r : α)
    (hacc : decode (gen 0) = some r) :
    acquire gen decode fb n = (r, 1) := by
  cases n with
  | zero => simp [acquire, acquireFrom, hacc]
  | succ m => simp [acquire, acquireFrom, hacc]

/-- Witness for C2: a decode that accepts the first raw text returns its
record with exactly one call, for budget 5. -/
theorem acquire_first_decode_success_witness :
    acquire (fun _ => "hi") (fun t => some (PyVal.str t))
        (fun t => PyVal.str t) 5 = (PyVal.str "hi", 1) := by
  have h := acquire_first_decode_success (fun _ => "hi")
    (fun t => some (PyVal.str t)) (fun t => PyVal.str t) 5 (PyVal.str "hi")
    rfl
  simpa using h

/-- Any message the builder returns has a string as display text: both
branches go through the coercing constructor. -/
theorem buildMsg_ok_text_isStr (name : String) (r : PyVal) (m : Msg)
    (h : buildMsg name r = Except.ok m) : m.text.isStr = true := by
  cases r with
  | dict es =>
    simp only [buildMsg] at h
    cases hf : findSpeak es with
    | none =>
      rw [hf] at h
      cases h
      rfl
    | some v =>
      rw [hf] at h
      by_cases hk : allStrKeys es = true
      · simp [hk] at h
        cases h
        rfl
      · simp [hk] at h
  | str s => cases h; rfl
  | int n => cases h; rfl
  | bool b => cases h; rfl
  | none => cases h; rfl
  | list xs => cases h; rfl

/-- C3: for every record that is a dict containing the key "speak" (with
all keys strings, so that the keyword expansion succeeds), the built
message's display text is the speak value coerced to text — equal to that
value whenever, as in the spec's example, it is a string — and every entry
of the record, the speak entry included, is copied into the message's
additional-fields mapping. -/
theorem buildMsg_speak_dict (name : String) (es : List (PyVal × PyVal))
    (v : PyVal) (hkeys : allStrKeys es = true) (hfind : findSpeak es = some v) :
    buildMsg name (PyVal.dict es) =
      Except.ok ⟨name, PyVal.str (toText v), some es⟩ := by
  simp [buildMsg, hfind, hkeys, Msg.make]

/-- Witness for C3: the record of the spec's example, speak "hi" and mood
"happy", yields display text "hi" and both entries as additional fields. -/
theorem buildMsg_speak_dict_witness :
    buildMsg "bob" (PyVal.dict [(PyVal.str "speak", PyVal.str "hi"),
        (PyVal.str "mood", PyVal.str "happy")]) =
      Except.ok ⟨"bob", PyVal.str "hi",
        some [(PyVal.str "speak", PyVal.str "hi"),
          (PyVal.str "mood", PyVal.str "happy")]⟩ := by
  have h := buildMsg_speak_dict "bob"
    [(PyVal.str "speak", PyVal.str "hi"), (PyVal.str "mood", PyVal.str "happy")]
    (PyVal.str "hi") rfl rfl
  simpa [toText] using h

/-- C4: for every record that is not a dict containing the key "speak", the
built message's display text is the record itself coerced to text and no
additional fields are set. -/
theorem buildMsg_no_speak (name : String) (r : PyVal)
    (h : ∀ es, r = PyVal.dict es → findSpeak es = Option.none) :
    buildMsg name r = Except.ok ⟨name, PyVal.str (toText r), Option.none⟩ := by
  cases r with
  | dict es =>
    have hf := h es rfl
    simp [buildMsg, hf, Msg.make]
  | str s => rfl
  | int n => rfl
  | bool b => rfl
  | none => rfl
  | list xs => rfl

/-- Witness for C4: the scalar string record "hello" of the spec's example
yields display text "hello" and no additional fields. -/
theorem buildMsg_no_speak_witness :
    buildMsg "bob" (PyVal.str "hello") =
      Except.ok ⟨"bob", PyVal.str "hello", Option.none⟩ := by
  have h := buildMsg_no_speak "bob" (PyVal.str "hello") (fun es hes => by cases hes)
  simpa [toText] using h

/-- Counterexample for C5: the Message Builder can fail.  On the record
whose entries are speak ↦ "hi" and 1 ↦ "x" — a dict containing "speak" with
a non-string key — the `**response` expansion of line 147 raises a
`TypeError`, so building does not succeed. -/
theorem buildMsg_nonstr_key_raises :
    buildMsg "a" (PyVal.dict [(PyVal.str "speak", PyVal.str "hi"),
        (PyVal.int 1, PyVal.str "x")]) =
      Except.error PyError.typeError := rfl

/-- C5 (amended): the Message Builder accepts every record shape except a
dict containing the key "speak" that also has a non-string key: for every
record that is not a dict, is a dict without "speak", or is a dict with
"speak" all of whose keys are strings, building succeeds. -/
theorem buildMsg_total_on_string_keys (name : String) (r : PyVal)
    (h : ∀ es v, r = PyVal.dict es → findSpeak es = some v →
      allStrKeys es = true) :
    ∃ m, buildMsg name r = Except.ok m := by
  cases r with
  | dict es =>
    cases hf : findSpeak es with
    | none =>
      exact ⟨Msg.make name (PyVal.dict es) Option.none, by simp [buildMsg, hf]⟩
    | some v =>
      have hk := h es v rfl hf
      exact ⟨Msg.make name v (some es), by simp [buildMsg, hf, hk]⟩
  | str s => exact ⟨_, rfl⟩
  | int n => exact ⟨_, rfl⟩
  | bool b => exact ⟨_, rfl⟩
  | none => exact ⟨_, rfl⟩
  | list xs => exact ⟨_, rfl⟩

/-- Witness for C5 (amended): building succeeds on a dict whose speak value
is the non-string 5 but whose keys are all strings. -/
theorem buildMsg_total_on_string_keys_witness :
    ∃ m, buildMsg "a" (PyVal.dict [(PyVal.str "speak", PyVal.int 5)]) =
      Except.ok m :=
  buildMsg_total_on_string_keys "a"
    (PyVal.dict [(PyVal.str "speak", PyVal.int 5)])
    (fun es v h1 h2 => by cases h1; rfl)

/-- C6: every message produced by a reply cycle satisfies the Message
invariant — its display text is present and is a string — for every
possible acquired record, including non-string records and dicts whose
speak value is not a string, since both builder branches coerce the content
to text. -/
theorem reply_msg_text_isStr
    (assemble : Option String → List HistoryEntry → String)
    (gen : String → Nat → String) (A : DictDialogAgent)
    (h : List HistoryEntry) (x : Option PyVal) (m : Msg)
    (h2 : List HistoryEntry) (p : String) (c : Nat)
    (hr : reply assemble gen A h x = Except.ok (m, h2, p, c)) :
    m.text.isStr = true := by
  simp only [reply] at hr
  cases hb : buildMsg A.name
      (acquire (gen (assemble A.sys_prompt (h ++ inpList x))) A.parse_func
        A.fault_handler A.max_retries.toNat).1 with
  | ok m2 =>
    rw [hb] at hr
    cases hr
    exact buildMsg_ok_text_isStr _ _ _ hb
  | error e =>
    rw [hb] at hr
    cases hr

/-- Witness for C6: a concrete reply cycle whose decode always fails and
whose fallback wraps the raw text produces a message whose display text is
the string "x". -/
theorem reply_msg_text_isStr_witness :
    (⟨"a", PyVal.str "x",
        some [(PyVal.str "speak", PyVal.str "x")]⟩ : Msg).text.isStr = true :=
  reply_msg_text_isStr (fun _ _ => "p") (fun _ _ => "x")
    ⟨"a", Option.none, fun _ => Option.none, defaultFaultHandler, 0,
      PromptType.LIST⟩
    [] Option.none _
    [HistoryEntry.msg ⟨"a", PyVal.str "x",
      some [(PyVal.str "speak", PyVal.str "x")]⟩] "p" 1 rfl

/-- Counterexample for C7: constructing the agent with the negative retry
budget -1 does not raise a `ConfigurationError` — `__init__` performs no
validation and returns the agent with the invalid budget stored. -/
theorem init_negative_budget_ok :
    dictDialogAgentInit "a" Option.none jsonLoads defaultFaultHandler (-1)
        PromptType.LIST =
      Except.ok ⟨"a", Option.none, jsonLoads, defaultFaultHandler, -1,
        PromptType.LIST⟩ := rfl

/-- C7 (amended): construction performs no validation of the retry budget —
every negative budget is accepted, stored unchanged on the agent, and no
`ConfigurationError` is raised at construction time. -/
theorem init_no_budget_validation (name : String) (sp : Option String)
    (pf : String → Option PyVal) (fh : String → PyVal) (mr : Int)
    (pt : PromptType) (_hneg : mr < 0) :
    ∃ a, dictDialogAgentInit name sp pf fh mr pt = Except.ok a ∧
      a.max_retries = mr :=
  ⟨⟨name, sp, pf, fh, mr, pt⟩, rfl, rfl⟩

/-- Witness for C7 (amended): construction with budget -2 succeeds and
stores -2. -/
theorem init_no_budget_validation_witness :
    ∃ a, dictDialogAgentInit "a" Option.none jsonLoads defaultFaultHandler
        (-2) PromptType.LIST = Except.ok a ∧ a.max_retries = -2 :=
  init_no_budget_validation "a" Option.none jsonLoads defaultFaultHandler
    (-2) PromptType.LIST (by decide)

/-- C8: after a reply cycle that returns message `M` on caller input `I`,
the History Store ends with the input followed by the message, `[..., I, M]`,
and the prompt was assembled from the history with `I` already appended —
the input is recorded before prompt assembly, the message after acquisition;
with no caller input, only `M` is appended. -/
theorem reply_history_order
    (assemble : Option String → List HistoryEntry → String)
    (gen : String → Nat → String) (A : DictDialogAgent)
    (h : List HistoryEntry) (x : Option PyVal) (m : Msg)
    (h2 : List HistoryEntry) (p : String) (c : Nat)
    (hr : reply assemble gen A h x = Except.ok (m, h2, p, c)) :
    h2 = (h ++ inpList x) ++ [HistoryEntry.msg m] ∧
      p = assemble A.sys_prompt (h ++ inpList x) := by
  simp only [reply] at hr
  cases hb : buildMsg A.name
      (acquire (gen (assemble A.sys_prompt (h ++ inpList x))) A.parse_func
        A.fault_handler A.max_retries.toNat).1 with
  | ok m2 =>
    rw [hb] at hr
    cases hr
    exact ⟨rfl, rfl⟩
  | error e =>
    rw [hb] at hr
    cases hr

/-- Witness for C8: a concrete reply cycle with caller input `I` ends its
history with `[I, M]` and assembled its prompt from the history already
containing `I`. -/
theorem reply_history_order_witness :
    [HistoryEntry.inp (PyVal.str "q"),
        HistoryEntry.msg ⟨"a", PyVal.str "x",
          some [(PyVal.str "speak", PyVal.str "x")]⟩] =
      ([] ++ inpList (some (PyVal.str "q"))) ++
        [HistoryEntry.msg ⟨"a", PyVal.str "x",
          some [(PyVal.str "speak", PyVal.str "x")]⟩] ∧
      "p" = (fun (_ : Option String) (_ : List HistoryEntry) => "p")
        (Option.none : Option String)
        ([] ++ inpList (some (PyVal.str "q"))) :=
  reply_history_order (fun _ _ => "p") (fun _ _ => "x")
    ⟨"a", Option.none, fun _ => Option.none, defaultFaultHandler, 0,
      PromptType.LIST⟩
    [] (some (PyVal.str "q")) _ _ "p" 1 rfl

/-- Any error the builder returns is a `TypeError`, and it occurs exactly
when the record is a dict containing "speak" with some non-string key. -/
theorem buildMsg_error_shape (name : String) (r : PyVal) (e : PyError)
    (h : buildMsg name r = Except.error e) :
    e = PyError.typeError ∧ ∃ es v, r = PyVal.dict es ∧
      findSpeak es = some v ∧ allStrKeys es = false := by
  cases r with
  | dict es =>
    simp only [buildMsg] at h
    cases hf : findSpeak es with
    | none =>
      rw [hf] at h
      cases h
    | some v =>
      rw [hf] at h
      by_cases hk : allStrKeys es = true
      · simp [hk] at h
      · simp [hk] at h
        exact ⟨h.symm, es, v, rfl, hf, by simpa using hk⟩
  | str s => cases h
  | int n => cases h
  | bool b => cases h
  | none => cases h
  | list xs => cases h

/-- Counterexample for C9: a reply cycle can surface a caller-visible error.
With a decode function that returns a dict containing "speak" with the
non-string key 1, the reply cycle raises a `TypeError` from the Message
Builder instead of returning a message. -/
theorem reply_bad_record_raises :
    reply (fun _ _ => "p") (fun _ _ => "t")
        ⟨"a", Option.none,
          fun _ => some (PyVal.dict [(PyVal.str "speak", PyVal.str "hi"),
            (PyVal.int 1, PyVal.none)]),
          fun t => PyVal.str t, 3, PromptType.LIST⟩
        [] Option.none =
      Except.error PyError.typeError := rfl

/-- C9 (amended): no `DecodeError` ever escapes the acquisition to the reply
cycle's caller — decoding failures are always resolved into a record via
retry-then-fallback; the only error a reply cycle can surface is the Message
Builder's `TypeError`, which occurs exactly when the acquired record is a
dict containing "speak" with a non-string key. -/
theorem reply_error_only_builder_typeError
    (assemble : Option String → List HistoryEntry → String)
    (gen : String → Nat → String) (A : DictDialogAgent)
    (h : List HistoryEntry) (x : Option PyVal) (e : PyError)
    (hr : reply assemble gen A h x = Except.error e) :
    e = PyError.typeError ∧ ∃ es v,
      acquiredRecord assemble gen A h x = PyVal.dict es ∧
      findSpeak es = some v ∧ allStrKeys es = false := by
  simp only [reply] at hr
  cases hb : buildMsg A.name
      (acquire (gen (assemble A.sys_prompt (h ++ inpList x))) A.parse_func
        A.fault_handler A.max_retries.toNat).1 with
  | ok m2 =>
    rw [hb] at hr
    cases hr
  | error e2 =>
    rw [hb] at hr
    cases hr
    have hs := buildMsg_error_shape A.name _ e hb
    simpa [acquiredRecord] using hs

/-- Witness for C9 (amended): on the concrete reply cycle whose decode
yields a dict with the non-string key 1, the surfaced error is the builder
`TypeError` and the acquired record is that dict. -/
theorem reply_error_only_builder_typeError_witness :
    PyError.typeError = PyError.typeError ∧ ∃ es v,
      acquiredRecord (fun _ _ => "p") (fun _ _ => "t")
          ⟨"a", Option.none,
            fun _ => some (PyVal.dict [(PyVal.str "speak", PyVal.str "hi"),
              (PyVal.int 1, PyVal.none)]),
            fun t => PyVal.str t, 3, PromptType.LIST⟩
          [] Option.none = PyVal.dict es ∧
        findSpeak es = some v ∧ allStrKeys es = false :=
  reply_error_only_builder_typeError (fun _ _ => "p") (fun _ _ => "t")
    ⟨"a", Option.none,
      fun _ => some (PyVal.dict [(PyVal.str "speak", PyVal.str "hi"),
        (PyVal.int 1, PyVal.none)]),
      fun t => PyVal.str t, 3, PromptType.LIST⟩
    [] Option.none PyError.typeError rfl

/-- Counterexample for C10: not every construction parameter is optional —
`name` is the one parameter of `__init__` without a default value, so
construction cannot be called without it. -/
theorem init_name_required :
    ("name", false) ∈ initParamsWithDefault ∧
      ("name", true) ∉ initParamsWithDefault := by
  decide

/-- C10 (amended): construction accepts name, system instruction, retry
budget, decode function, fallback function and prompt layout; all of them
except `name` — which is required — are optional with documented defaults:
the decode function defaults to the JSON decode `json.loads` (accepting
well-formed JSON and failing on malformed input), the fallback function
defaults to wrapping the raw text as the value of the "speak" key (and,
being a total function, never fails), the retry budget defaults to 3 and
the prompt layout to LIST. -/
theorem init_optional_params_and_defaults (t : String) :
    ("sys_prompt", true) ∈ initParamsWithDefault ∧
      ("parse_func", true) ∈ initParamsWithDefault ∧
      ("fault_handler", true) ∈ initParamsWithDefault ∧
      ("max_retries", true) ∈ initParamsWithDefault ∧
      ("prompt_type", true) ∈ initParamsWithDefault ∧
      ("name", false) ∈ initParamsWithDefault ∧
      defaultParseFunc = jsonLoads ∧
      defaultMaxRetries = 3 ∧
      defaultPromptType = PromptType.LIST ∧
      defaultFaultHandler t = PyVal.dict [(PyVal.str "speak", PyVal.str t)] ∧
      jsonLoads "\x7b\"speak\": \"hi\"\x7d" =
        some (PyVal.dict [(PyVal.str "speak", PyVal.str "hi")]) ∧
      jsonLoads "oops" = Option.none :=
  ⟨by decide, by decide, by decide, by decide, by decide, by decide, rfl,
    rfl, rfl, rfl, rfl, rfl⟩

/-- Witness for C10 (amended): the defaults at the raw text "hello". -/
theorem init_optional_params_and_defaults_witness :
    ("sys_prompt", true) ∈ initParamsWithDefault ∧
      ("parse_func", true) ∈ initParamsWithDefault ∧
      ("fault_handler", true) ∈ initParamsWithDefault ∧
      ("max_retries", true) ∈ initParamsWithDefault ∧
      ("prompt_type", true) ∈ initParamsWithDefault ∧
      ("name", false) ∈ initParamsWithDefault ∧
      defaultParseFunc = jsonLoads ∧
      defaultMaxRetries = 3 ∧
      defaultPromptType = PromptType.LIST ∧
      defaultFaultHandler "hello" =
        PyVal.dict [(PyVal.str "speak", PyVal.str "hello")] ∧
      jsonLoads "\x7b\"speak\": \"hi\"\x7d" =
        some (PyVal.dict [(PyVal.str "speak", PyVal.str "hi")]) ∧
      jsonLoads "oops" = Option.none :=
  init_optional_params_and_defaults "hello"
